import Mathlib

/-!
Shallow embedding of the dynamic entity fact retriever from the
tech-insights backend plugin.  The repository holds two variants of the
retriever: the standalone descriptor in
`dynamicEntityFactRetriever.ts` and the factory version
`createDynamicEntityFactRetriever` (with an optional static entity
filter).  Both map each catalog entity to a flat fact record; the
embedding models the entity data, the per-entity transform of each
variant, the filter-precedence logic and the handler's batch map.

JavaScript truthiness matters for several fields (`v || dflt`,
`Boolean(v)` treat the empty string as falsy), so the string helpers
below mirror that behaviour exactly.  `DateTime.now()` is modelled by
an explicit clock: the handler receives a function from the position of
an entity in the batch to the instant at which its record is produced.
-/

/-- A link object from `metadata.links` (catalog-model `EntityLink`);
the retriever only ever takes the length of the links array. -/
structure Link where
  url : String
  title : Option String
  icon : Option String
  deriving DecidableEq

/-- A relation entry from `entity.relations`: a typed edge. -/
structure Relation where
  «type» : String
  targetRef : String
  deriving DecidableEq

/-- The `metadata` object of an entity; `name` is required, the other
fields are optional exactly as in the catalog model. -/
structure EntityMeta where
  name : String
  «namespace» : Option String
  title : Option String
  description : Option String
  tags : Option (List String)
  annotations : Option (List (String × String))
  labels : Option (List (String × String))
  links : Option (List Link)
  deriving DecidableEq

/-- The projection of the `spec` object read by the retriever
(`owner`, `lifecycle`, `type`, `system`). -/
structure EntitySpec where
  owner : Option String
  lifecycle : Option String
  «type» : Option String
  system : Option String
  deriving DecidableEq

/-- A catalog entity as consumed by the retriever: required `kind` and
`metadata`, optional `spec`, `relations` and `status`. -/
structure Entity where
  kind : String
  metadata : EntityMeta
  spec : Option EntitySpec
  relations : Option (List Relation)
  status : Option (List (String × String))
  deriving DecidableEq

/-- The empty object the code substitutes for a missing `spec`
(`entity.spec || {}`). -/
def emptySpec : EntitySpec :=
  { owner := none, lifecycle := none, «type» := none, system := none }

/-- A value stored under one key of the flat `facts` mapping. -/
inductive FactValue where
  | null
  | bool (b : Bool)
  | num (n : Nat)
  | str (s : String)
  | strList (xs : List String)
  | strMap (kvs : List (String × String))
  | linkList (xs : List Link)
  | relList (rs : List Relation)
  | metaObj (m : EntityMeta)
  | specObj (s : EntitySpec)
  | entityObj (e : Entity)
  deriving DecidableEq

/-- The `entity` identity block of an output record.  The source reads
`entity.metadata.namespace!`; the non-null assertion is erased at
runtime, so the stored value is the raw optional namespace. -/
structure EntityRef where
  «namespace» : Option String
  kind : String
  name : String
  deriving DecidableEq

/-- One output record: identity block, flat facts mapping (an ordered
key/value list, as built by the object literal), and a timestamp. -/
structure FactRecord where
  entity : EntityRef
  facts : List (String × FactValue)
  timestamp : Nat
  deriving DecidableEq

/-- JS `v || dflt` on an optional string: absent and the empty string
are falsy, any other string is returned unchanged. -/
def jsOrElse (v : Option String) (dflt : String) : String :=
  match v with
  | some s => if s = "" then dflt else s
  | none => dflt

/-- JS `v || null` on an optional string: absent and the empty string
become `null`, any other string is kept. -/
def jsOrNull (v : Option String) : FactValue :=
  match v with
  | some s => if s = "" then FactValue.null else FactValue.str s
  | none => FactValue.null

/-- JS `Boolean(v)` on an optional string: true exactly for a present,
non-empty string. -/
def jsBoolean (v : Option String) : Bool :=
  match v with
  | some s => s != ""
  | none => false

/-- The per-entity transform of `createDynamicEntityFactRetriever`
(the factory version, which includes the `status` fact).  Keys appear
in the order of the object literal in the source. -/
def toFactRecord (now : Nat) (entity : Entity) : FactRecord :=
  let metadata := entity.metadata
  let spec := entity.spec.getD emptySpec
  let relations := entity.relations.getD []
  let status := entity.status.getD []
  let annotations := metadata.annotations.getD []
  let labels := metadata.labels.getD []
  let tags := metadata.tags.getD []
  let links := metadata.links.getD []
  let dependencyCount := (relations.filter (fun r => r.«type» == "dependsOn")).length
  let dependentCount := (relations.filter (fun r => r.«type» == "dependencyOf")).length
  { entity := { «namespace» := entity.metadata.«namespace»
                kind := entity.kind
                name := entity.metadata.name }
    facts := [
      ("entity", FactValue.entityObj entity),
      ("kind", FactValue.str entity.kind),
      ("name", FactValue.str metadata.name),
      ("namespace", FactValue.str (jsOrElse metadata.«namespace» "default")),
      ("metadata", FactValue.metaObj metadata),
      ("annotations", FactValue.strMap annotations),
      ("labels", FactValue.strMap labels),
      ("title", jsOrNull metadata.title),
      ("description", jsOrNull metadata.description),
      ("tags", FactValue.strList tags),
      ("links", FactValue.linkList links),
      ("spec", FactValue.specObj spec),
      ("owner", jsOrNull spec.owner),
      ("lifecycle", jsOrNull spec.lifecycle),
      ("type", jsOrNull spec.«type»),
      ("system", jsOrNull spec.system),
      ("relations", FactValue.relList relations),
      ("status", FactValue.strMap status),
      ("hasTitle", FactValue.bool (jsBoolean metadata.title)),
      ("hasDescription", FactValue.bool (jsBoolean metadata.description)),
      ("hasTags", FactValue.bool (decide (tags.length > 0))),
      ("hasOwner", FactValue.bool (jsBoolean spec.owner)),
      ("hasAnnotations", FactValue.bool (decide (annotations.length > 0))),
      ("hasLabels", FactValue.bool (decide (labels.length > 0))),
      ("relationCount", FactValue.num relations.length),
      ("dependencyCount", FactValue.num dependencyCount),
      ("dependentCount", FactValue.num dependentCount),
      ("linkCount", FactValue.num links.length) ]
    timestamp := now }

/-- The per-entity transform of the standalone
`dynamicEntityFactRetriever.ts` descriptor.  Identical to the factory
version except that the object literal never reads `entity.status` and
emits no `status` fact. -/
def toFactRecordTs (now : Nat) (entity : Entity) : FactRecord :=
  let metadata := entity.metadata
  let spec := entity.spec.getD emptySpec
  let relations := entity.relations.getD []
  let annotations := metadata.annotations.getD []
  let labels := metadata.labels.getD []
  let tags := metadata.tags.getD []
  let links := metadata.links.getD []
  let dependencyCount := (relations.filter (fun r => r.«type» == "dependsOn")).length
  let dependentCount := (relations.filter (fun r => r.«type» == "dependencyOf")).length
  { entity := { «namespace» := entity.metadata.«namespace»
                kind := entity.kind
                name := entity.metadata.name }
    facts := [
      ("entity", FactValue.entityObj entity),
      ("kind", FactValue.str entity.kind),
      ("name", FactValue.str metadata.name),
      ("namespace", FactValue.str (jsOrElse metadata.«namespace» "default")),
      ("metadata", FactValue.metaObj metadata),
      ("annotations", FactValue.strMap annotations),
      ("labels", FactValue.strMap labels),
      ("title", jsOrNull metadata.title),
      ("description", jsOrNull metadata.description),
      ("tags", FactValue.strList tags),
      ("links", FactValue.linkList links),
      ("spec", FactValue.specObj spec),
      ("owner", jsOrNull spec.owner),
      ("lifecycle", jsOrNull spec.lifecycle),
      ("type", jsOrNull spec.«type»),
      ("system", jsOrNull spec.system),
      ("relations", FactValue.relList relations),
      ("hasTitle", FactValue.bool (jsBoolean metadata.title)),
      ("hasDescription", FactValue.bool (jsBoolean metadata.description)),
      ("hasTags", FactValue.bool (decide (tags.length > 0))),
      ("hasOwner", FactValue.bool (jsBoolean spec.owner)),
      ("hasAnnotations", FactValue.bool (decide (annotations.length > 0))),
      ("hasLabels", FactValue.bool (decide (labels.length > 0))),
      ("relationCount", FactValue.num relations.length),
      ("dependencyCount", FactValue.num dependencyCount),
      ("dependentCount", FactValue.num dependentCount),
      ("linkCount", FactValue.num links.length) ]
    timestamp := now }

/-- The key list of the published schema block, in the order it is
declared in the source (identical in both variants). -/
def schemaKeys : List String :=
  ["entity", "kind", "name", "namespace", "metadata", "annotations",
   "labels", "title", "description", "tags", "spec", "owner",
   "lifecycle", "type", "system", "relations", "status", "hasTitle",
   "hasDescription", "hasTags", "hasOwner", "hasAnnotations",
   "hasLabels", "relationCount", "dependencyCount", "dependentCount",
   "links", "linkCount"]

/-- Look one key up in the facts mapping of a record. -/
def factsLookup (r : FactRecord) (k : String) : Option FactValue :=
  r.facts.lookup k

/-- An entry of the entity-source filter grammar: a field paired with
either a literal (equality) or a sequence of literals (membership). -/
inductive FilterValue where
  | lit (v : String)
  | oneOf (vs : List String)
  deriving DecidableEq

/-- A filter expression: top-level entries implicitly ANDed. -/
abbrev FilterExpr := List (String × FilterValue)

/-- The retriever descriptor built by the factory, with the static
filter it captured (the handler closes over `entityFilterConfig`). -/
structure FactRetriever where
  id : String
  version : String
  title : String
  description : String
  entityFilterConfig : Option FilterExpr
  deriving DecidableEq

/-- The factory `createDynamicEntityFactRetriever(entityFilterConfig?,
factRetrieverId)`. -/
def createDynamicEntityFactRetriever
    (entityFilterConfig : Option FilterExpr) (factRetrieverId : String) :
    FactRetriever :=
  { id := factRetrieverId
    version := "0.1.0"
    title := "Dynamic Entity Properties" ++
      (if entityFilterConfig.isSome then " (Filtered)" else "")
    description := "Dynamic entity fact retriever" ++
      (if entityFilterConfig.isSome then " with entity filtering" else "")
    entityFilterConfig := entityFilterConfig }

/-- `const finalEntityFilter = entityFilterConfig || entityFilter`: a
configured filter (always a truthy object when present) wins over the
context filter. -/
def finalEntityFilter (entityFilterConfig ctxFilter : Option FilterExpr) :
    Option FilterExpr :=
  match entityFilterConfig with
  | some f => some f
  | none => ctxFilter

/-- The handler's batch map: each entity at position `i` is transformed
with the instant `clock i` (each record captures `DateTime.now()` at
the point of mapping). -/
def mapWithClock (clock : Nat → Nat) : Nat → List Entity → List FactRecord
  | _, [] => []
  | i, e :: es => toFactRecord (clock i) e :: mapWithClock clock (i + 1) es

/-- The handler of a factory-built retriever: resolve the effective
filter, fetch the entities once from the catalog, and map every
returned entity through the transform in order. -/
def runHandler (r : FactRetriever) (catalog : Option FilterExpr → List Entity)
    (entityFilter : Option FilterExpr) (clock : Nat → Nat) : List FactRecord :=
  mapWithClock clock 0
    (catalog (finalEntityFilter r.entityFilterConfig entityFilter))

/-- The end-to-end example entity of the spec: a Component named `svc`
in the default namespace with one tag, an owner, a lifecycle and three
relations. -/
def entityBase : Entity :=
  { kind := "Component"
    metadata :=
      { name := "svc"
        «namespace» := some "default"
        title := none
        description := none
        tags := some ["java"]
        annotations := none
        labels := none
        links := none }
    spec := some
      { owner := some "team-a"
        lifecycle := some "production"
        «type» := none
        system := none }
    relations := some
      [{ «type» := "dependsOn", targetRef := "x" },
       { «type» := "dependsOn", targetRef := "y" },
       { «type» := "dependencyOf", targetRef := "z" }]
    status := none }

/-- An entity whose `metadata.namespace` is absent. -/
def entityNoNs : Entity :=
  { entityBase with metadata := { entityBase.metadata with «namespace» := none } }

/-- An entity whose `metadata.namespace` is present but the empty
string. -/
def entityEmptyNs : Entity :=
  { entityBase with metadata := { entityBase.metadata with «namespace» := some "" } }

/-- A catalog returning one namespace-less entity followed by a
well-formed one, regardless of the filter. -/
def catalogNoNs : Option FilterExpr → List Entity :=
  fun _ => [entityNoNs, entityBase]

lemma factsLookup_namespace (now : Nat) (e : Entity) :
    factsLookup (toFactRecord now e) "namespace" =
      some (FactValue.str (jsOrElse e.metadata.«namespace» "default")) := rfl

lemma factsLookup_hasTitle (now : Nat) (e : Entity) :
    factsLookup (toFactRecord now e) "hasTitle" =
      some (FactValue.bool (jsBoolean e.metadata.title)) := rfl

lemma factsLookup_dependencyCount (now : Nat) (e : Entity) :
    factsLookup (toFactRecord now e) "dependencyCount" =
      some (FactValue.num
        ((e.relations.getD []).filter (fun r => r.«type» == "dependsOn")).length) := rfl

lemma factsLookup_hasDescription (now : Nat) (e : Entity) :
    factsLookup (toFactRecord now e) "hasDescription" =
      some (FactValue.bool (jsBoolean e.metadata.description)) := rfl

lemma factsLookup_hasOwner (now : Nat) (e : Entity) :
    factsLookup (toFactRecord now e) "hasOwner" =
      some (FactValue.bool (jsBoolean (e.spec.getD emptySpec).owner)) := rfl

lemma factsLookup_hasTags (now : Nat) (e : Entity) :
    factsLookup (toFactRecord now e) "hasTags" =
      some (FactValue.bool (decide ((e.metadata.tags.getD []).length > 0))) := rfl

lemma factsLookup_hasAnnotations (now : Nat) (e : Entity) :
    factsLookup (toFactRecord now e) "hasAnnotations" =
      some (FactValue.bool (decide ((e.metadata.annotations.getD []).length > 0))) := rfl

lemma factsLookup_hasLabels (now : Nat) (e : Entity) :
    factsLookup (toFactRecord now e) "hasLabels" =
      some (FactValue.bool (decide ((e.metadata.labels.getD []).length > 0))) := rfl

lemma factsLookup_title (now : Nat) (e : Entity) :
    factsLookup (toFactRecord now e) "title" =
      some (jsOrNull e.metadata.title) := rfl

lemma factsLookup_description (now : Nat) (e : Entity) :
    factsLookup (toFactRecord now e) "description" =
      some (jsOrNull e.metadata.description) := rfl

lemma factsLookup_owner (now : Nat) (e : Entity) :
    factsLookup (toFactRecord now e) "owner" =
      some (jsOrNull (e.spec.getD emptySpec).owner) := rfl

lemma factsLookup_dependentCount (now : Nat) (e : Entity) :
    factsLookup (toFactRecord now e) "dependentCount" =
      some (FactValue.num
        ((e.relations.getD []).filter (fun r => r.«type» == "dependencyOf")).length) := rfl

lemma factsLookup_relationCount (now : Nat) (e : Entity) :
    factsLookup (toFactRecord now e) "relationCount" =
      some (FactValue.num (e.relations.getD []).length) := rfl

lemma jsBoolean_eq_true_iff (v : Option String) :
    jsBoolean v = true ↔ ∃ s, v = some s ∧ s ≠ "" := by
  cases v with
  | none => simp [jsBoolean]
  | some s => simp [jsBoolean]

lemma jsOrNull_eq_null_iff (v : Option String) :
    jsOrNull v = FactValue.null ↔ jsBoolean v = false := by
  cases v with
  | none => simp [jsOrNull, jsBoolean]
  | some s =>
    by_cases h : s = "" <;> simp [jsOrNull, jsBoolean, h]

lemma countP_three_split {α : Type} (p q : α → Bool)
    (hpq : ∀ a, p a = true → q a = false) (l : List α) :
    l.countP p + l.countP q + l.countP (fun a => !p a && !q a) = l.length := by
  induction l with
  | nil => simp
  | cons a t ih =>
    cases hp : p a <;> cases hq : q a
    · simp [List.countP_cons, hp, hq]
      omega
    · simp [List.countP_cons, hp, hq]
      omega
    · simp [List.countP_cons, hp, hq]
      omega
    · exact absurd (hpq a hp) (by simp [hq])

lemma mapWithClock_length (clock : Nat → Nat) (i : Nat) (l : List Entity) :
    (mapWithClock clock i l).length = l.length := by
  induction l generalizing i with
  | nil => rfl
  | cons a t ih => simp [mapWithClock, ih]

lemma mapWithClock_getElem? (clock : Nat → Nat) (i j : Nat) (l : List Entity) :
    (mapWithClock clock i l)[j]? =
      (l[j]?).map (fun e => toFactRecord (clock (i + j)) e) := by
  induction l generalizing i j with
  | nil => simp [mapWithClock]
  | cons a t ih =>
    cases j with
    | zero => simp [mapWithClock]
    | succ j2 =>
      have h : i + (j2 + 1) = i + 1 + j2 := by omega
      simp only [mapWithClock, List.getElem?_cons_succ, ih, h]

/-- C1 (amended): for every entity whose `metadata.namespace` is
absent, the transform does not fail — the non-null assertion is erased
at runtime — and returns a record whose `entityRef.namespace` is the
absent value unchanged while the `namespace` fact defaults to
`"default"`. -/
theorem C1_transform_total_on_missing_namespace (now : Nat) (e : Entity)
    (h : e.metadata.«namespace» = none) :
    (toFactRecord now e).entity.«namespace» = none ∧
    factsLookup (toFactRecord now e) "namespace" =
      some (FactValue.str "default") := by
  constructor
  · simp [toFactRecord, h]
  · rw [factsLookup_namespace, h]
    rfl

/-- C1 witness: the amended theorem applied to the concrete
namespace-less entity. -/
theorem C1_witness :
    entityNoNs.metadata.«namespace» = none ∧
    ((toFactRecord 0 entityNoNs).entity.«namespace» = none ∧
      factsLookup (toFactRecord 0 entityNoNs) "namespace" =
        some (FactValue.str "default")) :=
  ⟨by decide, C1_transform_total_on_missing_namespace 0 entityNoNs (by decide)⟩

/-- C1 counterexample: on a batch holding a namespace-less entity the
handler still produces one record per entity (nothing aborts), and the
transform of the namespace-less entity is a fact record, with the
`namespace` fact defaulted. -/
theorem C1_counterexample :
    (runHandler (createDynamicEntityFactRetriever none "dynamicEntityFactRetriever")
        catalogNoNs none (fun n => n)).length = 2 ∧
    (toFactRecord 0 entityNoNs).entity.«namespace» = none ∧
    factsLookup (toFactRecord 0 entityNoNs) "namespace" =
      some (FactValue.str "default") := by
  decide

/-- C2: the schema declares a `status` key and the factory transform
emits exactly the schema keys (including `status`, resolved to the
entity's status object or an empty object when absent), but the facts
mapping produced by the standalone `dynamicEntityFactRetriever.ts`
transform has no `status` key at all. -/
theorem C2_status_key_missing_in_ts :
    "status" ∈ schemaKeys ∧
    "status" ∉ (toFactRecordTs 0 entityBase).facts.map Prod.fst ∧
    ((toFactRecord 0 entityBase).facts.map Prod.fst).Perm schemaKeys ∧
    factsLookup (toFactRecord 0 entityBase) "status" =
      some (FactValue.strMap []) := by
  decide

/-- C3 (amended): the `namespace` fact equals `metadata.namespace`
when that value is present and non-empty, and is `"default"` when it
is absent or the empty string (JS falsiness), while
`entityRef.namespace` always equals the literal stored value with no
substitution. -/
theorem C3_namespace_fact_default (now : Nat) (e : Entity) :
    (toFactRecord now e).entity.«namespace» = e.metadata.«namespace» ∧
    factsLookup (toFactRecord now e) "namespace" =
      some (FactValue.str
        (match e.metadata.«namespace» with
          | some s => if s = "" then "default" else s
          | none => "default")) := by
  refine ⟨rfl, ?_⟩
  rw [factsLookup_namespace]
  cases e.metadata.«namespace» with
  | none => rfl
  | some s => rfl

/-- C3 counterexample: an entity whose `metadata.namespace` is present
but the empty string still gets the `"default"` fact, so the fact does
not equal the present stored value. -/
theorem C3_counterexample :
    entityEmptyNs.metadata.«namespace» = some "" ∧
    factsLookup (toFactRecord 0 entityEmptyNs) "namespace" =
      some (FactValue.str "default") ∧
    FactValue.str "default" ≠ FactValue.str "" := by
  decide

/-- C4: a descriptor built with a static filter queries the catalog
with that filter whatever the context filter says, and a descriptor
built without one queries with the context filter. -/
theorem C4_filter_precedence (f : FilterExpr) (factRetrieverId : String)
    (catalog : Option FilterExpr → List Entity) (ctxFilter : Option FilterExpr)
    (clock : Nat → Nat) :
    runHandler (createDynamicEntityFactRetriever (some f) factRetrieverId)
        catalog ctxFilter clock = mapWithClock clock 0 (catalog (some f)) ∧
    runHandler (createDynamicEntityFactRetriever none factRetrieverId)
        catalog ctxFilter clock = mapWithClock clock 0 (catalog ctxFilter) :=
  ⟨rfl, rfl⟩

/-- C5: for an entity whose relations hold `n1` entries of type
`dependsOn`, `n2` of type `dependencyOf` and `n3` of any other type,
the transform emits `dependencyCount = n1`, `dependentCount = n2` and
`relationCount = n1 + n2 + n3`. -/
theorem C5_relation_counts (now : Nat) (e : Entity) (rs : List Relation)
    (n1 n2 n3 : Nat) (hrs : e.relations = some rs)
    (h1 : rs.countP (fun r => r.«type» == "dependsOn") = n1)
    (h2 : rs.countP (fun r => r.«type» == "dependencyOf") = n2)
    (h3 : rs.countP
      (fun r => !(r.«type» == "dependsOn") && !(r.«type» == "dependencyOf")) = n3) :
    factsLookup (toFactRecord now e) "dependencyCount" = some (FactValue.num n1) ∧
    factsLookup (toFactRecord now e) "dependentCount" = some (FactValue.num n2) ∧
    factsLookup (toFactRecord now e) "relationCount" =
      some (FactValue.num (n1 + n2 + n3)) := by
  have hdisj : ∀ r : Relation, (r.«type» == "dependsOn") = true →
      (r.«type» == "dependencyOf") = false := by
    intro r hr
    have ht : r.«type» = "dependsOn" := by simpa using hr
    rw [ht]
    decide
  have hlen : rs.length = n1 + n2 + n3 := by
    rw [← h1, ← h2, ← h3]
    exact (countP_three_split _ _ hdisj rs).symm
  refine ⟨?_, ?_, ?_⟩
  · rw [factsLookup_dependencyCount, hrs]
    simp only [Option.getD_some]
    rw [← List.countP_eq_length_filter, h1]
  · rw [factsLookup_dependentCount, hrs]
    simp only [Option.getD_some]
    rw [← List.countP_eq_length_filter, h2]
  · rw [factsLookup_relationCount, hrs]
    simp only [Option.getD_some]
    rw [hlen]

/-- C5 witness: the end-to-end example entity, with two `dependsOn`
relations, one `dependencyOf` relation and no other relation. -/
theorem C5_witness :
    factsLookup (toFactRecord 0 entityBase) "dependencyCount" =
      some (FactValue.num 2) ∧
    factsLookup (toFactRecord 0 entityBase) "dependentCount" =
      some (FactValue.num 1) ∧
    factsLookup (toFactRecord 0 entityBase) "relationCount" =
      some (FactValue.num (2 + 1 + 0)) :=
  C5_relation_counts 0 entityBase
    [{ «type» := "dependsOn", targetRef := "x" },
     { «type» := "dependsOn", targetRef := "y" },
     { «type» := "dependencyOf", targetRef := "z" }]
    2 1 0 (by decide) (by decide) (by decide) (by decide)

/-- C6: each computed boolean fact is true exactly when the
corresponding source field passes the presence/non-emptiness test:
`hasTitle`/`hasDescription`/`hasOwner` need a present non-empty
string, `hasTags` a non-empty tag sequence, and
`hasAnnotations`/`hasLabels` a mapping with at least one key. -/
theorem C6_computed_booleans (now : Nat) (e : Entity) :
    (factsLookup (toFactRecord now e) "hasTitle" = some (FactValue.bool true) ↔
      ∃ s, e.metadata.title = some s ∧ s ≠ "") ∧
    (factsLookup (toFactRecord now e) "hasDescription" = some (FactValue.bool true) ↔
      ∃ s, e.metadata.description = some s ∧ s ≠ "") ∧
    (factsLookup (toFactRecord now e) "hasOwner" = some (FactValue.bool true) ↔
      ∃ sp s, e.spec = some sp ∧ sp.owner = some s ∧ s ≠ "") ∧
    (factsLookup (toFactRecord now e) "hasTags" = some (FactValue.bool true) ↔
      ∃ ts, e.metadata.tags = some ts ∧ ts ≠ []) ∧
    (factsLookup (toFactRecord now e) "hasAnnotations" = some (FactValue.bool true) ↔
      ∃ m, e.metadata.annotations = some m ∧ m.length > 0) ∧
    (factsLookup (toFactRecord now e) "hasLabels" = some (FactValue.bool true) ↔
      ∃ m, e.metadata.labels = some m ∧ m.length > 0) := by
  refine ⟨?_, ?_, ?_, ?_, ?_, ?_⟩
  · simp [factsLookup_hasTitle, jsBoolean_eq_true_iff]
  · simp [factsLookup_hasDescription, jsBoolean_eq_true_iff]
  · rw [factsLookup_hasOwner]
    cases hsp : e.spec with
    | none => simp [emptySpec, jsBoolean]
    | some sp => simp [jsBoolean_eq_true_iff]
  · rw [factsLookup_hasTags]
    cases ht : e.metadata.tags with
    | none => simp
    | some ts => simp [List.length_pos]
  · rw [factsLookup_hasAnnotations]
    cases ha : e.metadata.annotations with
    | none => simp
    | some m => simp
  · rw [factsLookup_hasLabels]
    cases hl : e.metadata.labels with
    | none => simp
    | some m => simp

/-- C7: in every produced record the two directed relation counts sum
to at most the total relation count. -/
theorem C7_count_inequality (now : Nat) (e : Entity) (d1 d2 rc : Nat)
    (h1 : factsLookup (toFactRecord now e) "dependencyCount" =
      some (FactValue.num d1))
    (h2 : factsLookup (toFactRecord now e) "dependentCount" =
      some (FactValue.num d2))
    (h3 : factsLookup (toFactRecord now e) "relationCount" =
      some (FactValue.num rc)) :
    d1 + d2 ≤ rc := by
  rw [factsLookup_dependencyCount] at h1
  rw [factsLookup_dependentCount] at h2
  rw [factsLookup_relationCount] at h3
  simp only [Option.some.injEq, FactValue.num.injEq] at h1 h2 h3
  have hdisj : ∀ r : Relation, (r.«type» == "dependsOn") = true →
      (r.«type» == "dependencyOf") = false := by
    intro r hr
    have ht : r.«type» = "dependsOn" := by simpa using hr
    rw [ht]
    decide
  have hsplit := countP_three_split
    (fun r => r.«type» == "dependsOn") (fun r => r.«type» == "dependencyOf")
    hdisj (e.relations.getD [])
  rw [List.countP_eq_length_filter, List.countP_eq_length_filter] at hsplit
  omega

/-- C7 witness: the inequality instantiated on the end-to-end example
entity, whose counts are 2, 1 and 3. -/
theorem C7_witness :
    factsLookup (toFactRecord 0 entityBase) "dependencyCount" =
      some (FactValue.num 2) ∧
    factsLookup (toFactRecord 0 entityBase) "dependentCount" =
      some (FactValue.num 1) ∧
    factsLookup (toFactRecord 0 entityBase) "relationCount" =
      some (FactValue.num 3) ∧
    2 + 1 ≤ 3 :=
  ⟨by decide, by decide, by decide,
    C7_count_inequality 0 entityBase 2 1 3 (by decide) (by decide) (by decide)⟩

/-- C8: the facts mapping (and the identity block) of the transform do
not depend on the capture instant: transforming the same entity at two
times yields identical facts, only the timestamp may differ. -/
theorem C8_facts_deterministic (t1 t2 : Nat) (e : Entity) :
    (toFactRecord t1 e).facts = (toFactRecord t2 e).facts ∧
    (toFactRecord t1 e).entity = (toFactRecord t2 e).entity :=
  ⟨rfl, rfl⟩

/-- C9: the handler returns one record per returned entity, in source
order: the output has the length of the fetched batch and its i-th
element is the transform of the i-th fetched entity. -/
theorem C9_handler_maps_every_entity_in_order (r : FactRetriever)
    (catalog : Option FilterExpr → List Entity) (entityFilter : Option FilterExpr)
    (clock : Nat → Nat) :
    (runHandler r catalog entityFilter clock).length =
      (catalog (finalEntityFilter r.entityFilterConfig entityFilter)).length ∧
    ∀ i : Nat, (runHandler r catalog entityFilter clock)[i]? =
      ((catalog (finalEntityFilter r.entityFilterConfig entityFilter))[i]?).map
        (fun e => toFactRecord (clock i) e) := by
  refine ⟨mapWithClock_length _ _ _, fun i => ?_⟩
  have h := mapWithClock_getElem? clock 0 i
    (catalog (finalEntityFilter r.entityFilterConfig entityFilter))
  simpa [runHandler] using h

/-- C10: a shortcut string fact is `null` exactly when its boolean
flag is false — empty-string sources are normalized to `null`, so the
shortcut value and its flag always agree. -/
theorem C10_shortcut_null_iff_flag_false (now : Nat) (e : Entity) :
    (factsLookup (toFactRecord now e) "title" = some FactValue.null ↔
      factsLookup (toFactRecord now e) "hasTitle" = some (FactValue.bool false)) ∧
    (factsLookup (toFactRecord now e) "description" = some FactValue.null ↔
      factsLookup (toFactRecord now e) "hasDescription" =
        some (FactValue.bool false)) ∧
    (factsLookup (toFactRecord now e) "owner" = some FactValue.null ↔
      factsLookup (toFactRecord now e) "hasOwner" = some (FactValue.bool false)) := by
  refine ⟨?_, ?_, ?_⟩
  · simp [factsLookup_title, factsLookup_hasTitle, jsOrNull_eq_null_iff]
  · simp [factsLookup_description, factsLookup_hasDescription, jsOrNull_eq_null_iff]
  · simp [factsLookup_owner, factsLookup_hasOwner, jsOrNull_eq_null_iff]
